import Mathlib

/-!
Shallow embedding of `scripts/locustfile.py`, a Locust load-test script.

Random draws (`random.gauss`, `random.random`, `random.choice`,
`random.uniform`, `random.randint`) are modelled as explicit parameters:
each embedded function takes the values the corresponding Python call
would have produced.  Real numbers are modelled as `ℚ`; timestamps
(`datetime.utcnow()`) are modelled as rational UTC clock values supplied
as parameters.  Response bodies decoded by `response.json()` are
modelled as association lists of Python values; an undecodable body is
`Option.none` and makes the decode step an `Except.error`, mirroring the
`json.JSONDecodeError` the Python call raises.
-/

namespace Locustfile

/-- Round-half-to-even of a rational to the nearest integer, the tie
rule of Python's `round`. -/
def roundHalfEven (y : ℚ) : ℤ :=
  if y - (⌊y⌋ : ℚ) < 1/2 then ⌊y⌋
  else if 1/2 < y - (⌊y⌋ : ℚ) then ⌊y⌋ + 1
  else if ⌊y⌋ % 2 = 0 then ⌊y⌋ else ⌊y⌋ + 1

/-- Python's `round(x, 2)`: round to 2 decimal places, ties to even, on
exact rationals. -/
def pyRound2 (x : ℚ) : ℚ :=
  (roundHalfEven (x * 100) : ℚ) / 100

theorem floor_le_roundHalfEven (y : ℚ) : ⌊y⌋ ≤ roundHalfEven y := by
  unfold roundHalfEven
  split_ifs <;> omega

theorem roundHalfEven_ge {y : ℚ} {k : ℤ} (h : (k : ℚ) ≤ y) : k ≤ roundHalfEven y := by
  have hk : k ≤ ⌊y⌋ := Int.le_floor.mpr h
  exact hk.trans (floor_le_roundHalfEven y)

theorem roundHalfEven_le {y : ℚ} {k : ℤ} (h : y ≤ (k : ℚ)) : roundHalfEven y ≤ k := by
  have hf : ⌊y⌋ ≤ k := by
    calc ⌊y⌋ ≤ ⌊(k : ℚ)⌋ := Int.floor_le_floor h
    _ = k := Int.floor_intCast k
  unfold roundHalfEven
  split_ifs with h1 h2 h3
  · exact hf
  · have hlt : (⌊y⌋ : ℚ) < (k : ℚ) := by
      have := Int.floor_le y
      linarith
    have : ⌊y⌋ < k := by exact_mod_cast hlt
    omega
  · exact hf
  · have h1le : (1 : ℚ)/2 ≤ y - (⌊y⌋ : ℚ) := not_lt.mp h1
    have hlt : (⌊y⌋ : ℚ) < (k : ℚ) := by linarith
    have : ⌊y⌋ < k := by exact_mod_cast hlt
    omega

theorem pyRound2_ge {x : ℚ} {k : ℤ} (h : (k : ℚ) ≤ x) : (k : ℚ) ≤ pyRound2 x := by
  unfold pyRound2
  rw [le_div_iff (by norm_num : (0:ℚ) < 100)]
  have : k * 100 ≤ roundHalfEven (x * 100) := by
    refine roundHalfEven_ge ?_
    push_cast
    linarith
  exact_mod_cast this

theorem pyRound2_le {x : ℚ} {k : ℤ} (h : x ≤ (k : ℚ)) : pyRound2 x ≤ (k : ℚ) := by
  unfold pyRound2
  rw [div_le_iff (by norm_num : (0:ℚ) < 100)]
  have : roundHalfEven (x * 100) ≤ k * 100 := by
    refine roundHalfEven_le ?_
    push_cast
    linarith
  exact_mod_cast this

theorem pyRound2_nonneg {x : ℚ} (h : 0 ≤ x) : 0 ≤ pyRound2 x := by
  have := pyRound2_ge (k := 0) (x := x) (by exact_mod_cast h)
  exact_mod_cast this

theorem pyRound2_le_hundred {x : ℚ} (h : x ≤ 100) : pyRound2 x ≤ 100 := by
  have := pyRound2_le (k := 100) (x := x) (by exact_mod_cast h)
  exact_mod_cast this

/-- A synthesized metric payload.  `timestamp` is the UTC clock value at
synthesis time; `device_id` is absent (`none`) on the simplified path. -/
structure Metric where
  timestamp : ℚ
  cpu : ℚ
  rps : ℚ
  device_id : Option String
deriving DecidableEq, Repr

/-- The anomaly substitution set for `cpu`: `random.choice([95, 98, 99, 5, 2, 1])`. -/
def cpuAnomalyValues : List ℚ := [95, 98, 99, 5, 2, 1]

/-- The anomaly substitution set for `rps`: `random.choice([1500, 2000, 50, 10])`. -/
def rpsAnomalyValues : List ℚ := [1500, 2000, 50, 10]

/-- Payload synthesis of `HighloadUser.send_metric` (locustfile.py lines 28-44).
`cpuDraw` is the result of `random.gauss(50, 15)`, `rpsDraw` of
`random.gauss(500, 100)`, `roll` of `random.random()`, `ci`/`ri` the indices
picked by the two `random.choice` calls, `t` the UTC clock value.  The
single Python `if random.random() < 0.05` guarding both overrides appears
here as two `if`s with the same condition. -/
def send_metric_payload (dev : String) (cpuDraw rpsDraw roll : ℚ)
    (ci : Fin 6) (ri : Fin 4) (t : ℚ) : Metric :=
  let cpuClamped := max 0 (min 100 cpuDraw)
  let rpsClamped := max 0 rpsDraw
  let cpu := if roll < 5/100 then cpuAnomalyValues.get ⟨ci, by simp [cpuAnomalyValues]⟩
             else cpuClamped
  let rps := if roll < 5/100 then rpsAnomalyValues.get ⟨ri, by simp [rpsAnomalyValues]⟩
             else rpsClamped
  { timestamp := t, cpu := pyRound2 cpu, rps := pyRound2 rps, device_id := some dev }

/-- One element of the batch built by `HighloadUser.send_batch`
(locustfile.py lines 61-72): gaussian draws, clamping, rounding,
timestamp and `device_id` — the loop body contains no anomaly branch. -/
def batch_elem (dev : String) (cpuDraw rpsDraw : ℚ) (t : ℚ) : Metric :=
  { timestamp := t
    cpu := pyRound2 (max 0 (min 100 cpuDraw))
    rps := pyRound2 (max 0 rpsDraw)
    device_id := some dev }

/-- The batch built by `HighloadUser.send_batch` (locustfile.py lines 60-72):
`for _ in range(10)`, appending one element per iteration.  `cpuDraws i`,
`rpsDraws i` and `clock i` are the gaussian draws and the UTC clock value
of iteration `i`. -/
def send_batch_metrics (dev : String) (cpuDraws rpsDraws clock : ℕ → ℚ) : List Metric :=
  (List.range 10).map fun i => batch_elem dev (cpuDraws i) (rpsDraws i) (clock i)

/-- Payload of `HighRPSUser.rapid_metrics` (locustfile.py lines 115-119):
`u` is the result of `random.uniform(20, 80)`, `v` of
`random.uniform(200, 800)`; no anomaly branch, no `device_id` key. -/
def rapid_metric (u v t : ℚ) : Metric :=
  { timestamp := t, cpu := pyRound2 u, rps := pyRound2 v, device_id := none }

/-- A decoded Python/JSON value, as produced by `response.json()`. -/
inductive PyVal where
  | pstr (s : String)
  | pnum (q : ℚ)
  | pbool (b : Bool)
  | pnull
deriving DecidableEq, Repr

/-- A decoded JSON object: association list from keys to values. -/
def PyDict := List (String × PyVal)

instance : DecidableEq PyDict := by
  unfold PyDict
  infer_instance

/-- `dict.get(key)`: the value at `key`, or `None` when the key is absent. -/
def dictGet (d : PyDict) (key : String) : Option PyVal :=
  List.lookup key d

/-- Outcome recorded through Locust's `catch_response` context manager:
`response.success()` or `response.failure(reason)`. -/
inductive Outcome where
  | success
  | failure (reason : String)
deriving DecidableEq, Repr

/-- State owned by one `HighloadUser` session (set in `on_start`). -/
structure Session where
  device_id : String
  metrics_count : ℕ
deriving DecidableEq, Repr

/-- `HighloadUser.on_start` (locustfile.py lines 19-22): `k` is the result
of `random.randint(1, 1000)`. -/
def on_start (k : ℕ) : Session :=
  { device_id := "device-" ++ toString k, metrics_count := 0 }

/-- Response handling of `send_metric` (locustfile.py lines 50-55): on
status 200 increment `metrics_count` and record success, otherwise record
failure citing the status code. -/
def send_metric_update (s : Session) (status : ℕ) : Session × Outcome :=
  if status = 200 then
    ({ s with metrics_count := s.metrics_count + 1 }, Outcome.success)
  else
    (s, Outcome.failure ("Status code: " ++ toString status))

/-- Response handling of `send_batch` (locustfile.py lines 78-82): record
success on 200, failure otherwise; the session state is not touched. -/
def send_batch_update (s : Session) (status : ℕ) : Session × Outcome :=
  if status = 200 then
    (s, Outcome.success)
  else
    (s, Outcome.failure ("Status code: " ++ toString status))

/-- Response handling of `get_analysis` (locustfile.py lines 87-91). -/
def get_analysis_update (s : Session) (status : ℕ) : Session × Outcome :=
  if status = 200 then
    (s, Outcome.success)
  else
    (s, Outcome.failure ("Status code: " ++ toString status))

/-- Outcome classification of `health_check` (locustfile.py lines 96-104).
`body` is the decoded JSON object, or `none` when the body is not valid
JSON, in which case `response.json()` raises — modelled as `Except.error`.
The status check comes first, so a non-200 response is never decoded. -/
def health_check_classify (status : ℕ) (body : Option PyDict) : Except String Outcome :=
  if status = 200 then
    match body with
    | some data =>
      if dictGet data "status" = some (PyVal.pstr "healthy") then
        Except.ok Outcome.success
      else
        Except.ok (Outcome.failure "Service unhealthy")
    | none => Except.error "JSONDecodeError"
  else
    Except.ok (Outcome.failure ("Status code: " ++ toString status))

/-- Response handling of `health_check` as a session step: the session
state is never modified. -/
def health_check_update (s : Session) (status : ℕ) (body : Option PyDict) :
    Session × Except String Outcome :=
  (s, health_check_classify status body)

/-- One turn of `HighRPSUser.rapid_metrics` (locustfile.py lines 113-121):
the synthesized metric is posted with no `catch_response` handler, so no
outcome is recorded and the response status is never read. -/
def rapid_turn (u v t : ℚ) (status : ℕ) : Metric × Option Outcome :=
  (rapid_metric u v t, none)

/-- The `@task` weight table of `HighloadUser` (locustfile.py lines 24, 57,
84, 93). -/
def highload_tasks : List (String × ℕ) :=
  [("send_metric", 10), ("send_batch", 2), ("get_analysis", 1), ("health_check", 1)]

theorem cpuAnomalyValues_bounds : ∀ q ∈ cpuAnomalyValues, 0 ≤ q ∧ q ≤ 100 := by
  intro q hq
  fin_cases hq <;> norm_num

theorem rpsAnomalyValues_nonneg : ∀ q ∈ rpsAnomalyValues, 0 ≤ q := by
  intro q hq
  fin_cases hq <;> norm_num

theorem clamp_nonneg (c : ℚ) : 0 ≤ max 0 (min 100 c) := le_max_left 0 _

theorem clamp_le_hundred (c : ℚ) : max 0 (min 100 c) ≤ 100 :=
  max_le (by norm_num) (min_le_left 100 c)

theorem send_metric_payload_cpu_bounds (dev : String) (c r roll : ℚ)
    (ci : Fin 6) (ri : Fin 4) (t : ℚ) :
    0 ≤ (send_metric_payload dev c r roll ci ri t).cpu ∧
      (send_metric_payload dev c r roll ci ri t).cpu ≤ 100 := by
  simp only [send_metric_payload]
  split_ifs with h
  · have hb := cpuAnomalyValues_bounds _
      (List.get_mem cpuAnomalyValues ci (by simp [cpuAnomalyValues]))
    exact ⟨pyRound2_nonneg hb.1, pyRound2_le_hundred hb.2⟩
  · exact ⟨pyRound2_nonneg (clamp_nonneg c), pyRound2_le_hundred (clamp_le_hundred c)⟩

theorem send_metric_payload_rps_nonneg (dev : String) (c r roll : ℚ)
    (ci : Fin 6) (ri : Fin 4) (t : ℚ) :
    0 ≤ (send_metric_payload dev c r roll ci ri t).rps := by
  simp only [send_metric_payload]
  split_ifs with h
  · exact pyRound2_nonneg (rpsAnomalyValues_nonneg _
      (List.get_mem rpsAnomalyValues ri (by simp [rpsAnomalyValues])))
  · exact pyRound2_nonneg (le_max_left 0 r)

theorem batch_elem_bounds (dev : String) (c r t : ℚ) :
    0 ≤ (batch_elem dev c r t).cpu ∧ (batch_elem dev c r t).cpu ≤ 100 ∧
      0 ≤ (batch_elem dev c r t).rps :=
  ⟨pyRound2_nonneg (clamp_nonneg c), pyRound2_le_hundred (clamp_le_hundred c),
    pyRound2_nonneg (le_max_left 0 r)⟩

/-- Claim C1, counterexample: with the gaussian draws 50 and 500 and an
anomaly roll of 0 (which fires the 5% trial) picking the first anomaly
values, single-metric synthesis yields `cpu = 95` while the batch-element
synthesis of the same draws yields `cpu = 50`: batch elements are not
produced by the same steps as a single-metric synthesis. -/
theorem claim1_counterexample :
    batch_elem "d" 50 500 0 ≠ send_metric_payload "d" 50 500 0 0 0 0
    ∧ (batch_elem "d" 50 500 0).cpu = 50
    ∧ (send_metric_payload "d" 50 500 0 0 0 0).cpu = 95 := by
  refine ⟨?_, ?_, ?_⟩
  · intro h
    have hc := congrArg Metric.cpu h
    norm_num [batch_elem, send_metric_payload, cpuAnomalyValues, pyRound2, roundHalfEven,
      min_def, max_def] at hc
  · norm_num [batch_elem, pyRound2, roundHalfEven, min_def, max_def]
  · norm_num [send_metric_payload, cpuAnomalyValues, pyRound2, roundHalfEven]

/-- Claim C1 (amended): the elements of a batch send are synthesized
without any anomaly roll — each batch element is built from the gaussian
draws by clamping, rounding, timestamping and attaching the device id
only, and it coincides with single-metric synthesis exactly on the
non-anomaly path (roll ≥ 0.05); the Bernoulli(0.05) override applies
only to single-metric sends. -/
theorem claim1_batch_without_anomaly (dev : String) (c r t roll : ℚ)
    (ci : Fin 6) (ri : Fin 4) (h : 5/100 ≤ roll) :
    batch_elem dev c r t = send_metric_payload dev c r roll ci ri t
    ∧ (batch_elem dev c r t).cpu = pyRound2 (max 0 (min 100 c))
    ∧ (batch_elem dev c r t).rps = pyRound2 (max 0 r) := by
  refine ⟨?_, rfl, rfl⟩
  simp [batch_elem, send_metric_payload, not_lt.mpr h]

/-- Claim C1, witness for the amended theorem at concrete draws. -/
theorem claim1_witness :
    (5/100 : ℚ) ≤ 1/2
    ∧ batch_elem "d" 50 500 0 = send_metric_payload "d" 50 500 (1/2) 0 0 0 :=
  ⟨by norm_num, (claim1_batch_without_anomaly "d" 50 500 0 (1/2) 0 0 (by norm_num)).1⟩

/-- Claim C2: the health-check action is classified successful iff the
status is 200 and the decoded body's `status` field equals `"healthy"`;
a 200 response with any other `status` value fails with the fixed reason
"Service unhealthy"; a non-200 response fails with a reason citing the
observed status code. -/
theorem claim2_health_check_classification (status : ℕ) (data : PyDict) :
    (health_check_classify status (some data) = Except.ok Outcome.success ↔
      status = 200 ∧ dictGet data "status" = some (PyVal.pstr "healthy"))
    ∧ (status = 200 → dictGet data "status" ≠ some (PyVal.pstr "healthy") →
        health_check_classify status (some data) =
          Except.ok (Outcome.failure "Service unhealthy"))
    ∧ (status ≠ 200 →
        health_check_classify status (some data) =
          Except.ok (Outcome.failure ("Status code: " ++ toString status))) := by
  by_cases hs : status = 200 <;>
    by_cases hd : dictGet data "status" = some (PyVal.pstr "healthy") <;>
      simp [health_check_classify, hs, hd]

/-- Claim C2, witness: a 503 response is classified failed citing 503. -/
theorem claim2_witness :
    (503 : ℕ) ≠ 200
    ∧ health_check_classify 503 (some ([] : PyDict)) =
        Except.ok (Outcome.failure ("Status code: " ++ toString 503)) :=
  ⟨by decide, (claim2_health_check_classification 503 []).2.2 (by decide)⟩

/-- Claim C3, counterexample: on a 200 response whose body is not valid
JSON, `response.json()` raises a decode error, so classification does not
produce a success or failure record on that path. -/
theorem claim3_counterexample :
    health_check_classify 200 none = Except.error "JSONDecodeError" := rfl

/-- Claim C3 (amended): classification produces a success or failure
record for every non-200 response and for every 200 response whose body
decodes as JSON; a 200 response with an undecodable body instead raises a
JSON decode error out of the classifier (which the external harness
catches, so the session loop still continues). -/
theorem claim3_classification_total_when_decodable (status : ℕ) (body : Option PyDict)
    (h : status ≠ 200 ∨ body ≠ none) :
    ∃ o, health_check_classify status body = Except.ok o := by
  by_cases hs : status = 200
  · rcases body with _ | data
    · subst hs
      rcases h with h | h
      · exact absurd rfl h
      · exact absurd rfl h
    · by_cases hd : dictGet data "status" = some (PyVal.pstr "healthy")
      · exact ⟨Outcome.success, by simp [health_check_classify, hs, hd]⟩
      · exact ⟨Outcome.failure "Service unhealthy", by simp [health_check_classify, hs, hd]⟩
  · exact ⟨Outcome.failure ("Status code: " ++ toString status),
      by simp [health_check_classify, hs]⟩

/-- Claim C3, witness for the amended theorem: a 503 response yields a
record even though its body is undecodable. -/
theorem claim3_witness :
    ((503 : ℕ) ≠ 200 ∨ (none : Option PyDict) ≠ none)
    ∧ ∃ o, health_check_classify 503 none = Except.ok o :=
  ⟨Or.inl (by decide),
    claim3_classification_total_when_decodable 503 none (Or.inl (by decide))⟩

/-- Claim C4: every synthesized metric sample, on the single, batch and
high-frequency simplified paths, satisfies `0 ≤ cpu ≤ 100` and
`0 ≤ rps`, both when the anomaly override fires and when it does not
(the high-frequency draws range over [20, 80] and [200, 800]). -/
theorem claim4_range_invariants (dev : String) (c r roll : ℚ) (ci : Fin 6) (ri : Fin 4)
    (t u v tr : ℚ) (hu1 : (20:ℚ) ≤ u) (hu2 : u ≤ 80) (hv1 : (200:ℚ) ≤ v) (hv2 : v ≤ 800) :
    (0 ≤ (send_metric_payload dev c r roll ci ri t).cpu
      ∧ (send_metric_payload dev c r roll ci ri t).cpu ≤ 100
      ∧ 0 ≤ (send_metric_payload dev c r roll ci ri t).rps)
    ∧ (0 ≤ (batch_elem dev c r t).cpu ∧ (batch_elem dev c r t).cpu ≤ 100
      ∧ 0 ≤ (batch_elem dev c r t).rps)
    ∧ (0 ≤ (rapid_metric u v tr).cpu ∧ (rapid_metric u v tr).cpu ≤ 100
      ∧ 0 ≤ (rapid_metric u v tr).rps) := by
  refine ⟨⟨(send_metric_payload_cpu_bounds dev c r roll ci ri t).1,
    (send_metric_payload_cpu_bounds dev c r roll ci ri t).2,
    send_metric_payload_rps_nonneg dev c r roll ci ri t⟩,
    batch_elem_bounds dev c r t, ?_, ?_, ?_⟩
  · show 0 ≤ pyRound2 u
    exact pyRound2_nonneg (by linarith)
  · show pyRound2 u ≤ 100
    exact pyRound2_le_hundred (by linarith)
  · show 0 ≤ pyRound2 v
    exact pyRound2_nonneg (by linarith)

/-- Claim C4, witness at concrete draws. -/
theorem claim4_witness :
    ((20:ℚ) ≤ 50 ∧ (50:ℚ) ≤ 80 ∧ (200:ℚ) ≤ 500 ∧ (500:ℚ) ≤ 800)
    ∧ 0 ≤ (rapid_metric 50 500 0).cpu :=
  ⟨⟨by norm_num, by norm_num, by norm_num, by norm_num⟩,
    (claim4_range_invariants "d" 50 500 (1/2) 0 0 0 50 500 0
      (by norm_num) (by norm_num) (by norm_num) (by norm_num)).2.2.1⟩

/-- Claim C5: `metrics_count` increases by exactly 1 when a single-metric
send receives status 200, and is left unchanged by every other action and
outcome — a batch send (any status, including 200), an analysis read and
a health check never touch the session state. -/
theorem claim5_metrics_count_frame (s : Session) (status : ℕ) (body : Option PyDict) :
    ((send_metric_update s 200).1.metrics_count = s.metrics_count + 1)
    ∧ (status ≠ 200 → (send_metric_update s status).1 = s)
    ∧ ((send_batch_update s status).1 = s)
    ∧ ((get_analysis_update s status).1 = s)
    ∧ ((health_check_update s status body).1 = s) := by
  refine ⟨by simp [send_metric_update], fun h => by simp [send_metric_update, h], ?_, ?_, rfl⟩
  · unfold send_batch_update
    split_ifs <;> rfl
  · unfold get_analysis_update
    split_ifs <;> rfl

/-- Claim C5, witness: a failed single-metric send leaves the session
unchanged. -/
theorem claim5_witness :
    (503 : ℕ) ≠ 200
    ∧ (send_metric_update ⟨"device-1", 5⟩ 503).1 = (⟨"device-1", 5⟩ : Session) :=
  ⟨by decide, (claim5_metrics_count_frame ⟨"device-1", 5⟩ 503 none).2.1 (by decide)⟩

/-- Claim C6: a batch send synthesizes exactly 10 samples forming an
ordered sequence, each sample satisfying the range invariants, and the
timestamps are monotonically non-decreasing assuming a monotone UTC
clock across the successive draws of one batch. -/
theorem claim6_batch_shape (dev : String) (cpuDraws rpsDraws clock : ℕ → ℚ)
    (hclock : Monotone clock) :
    (send_batch_metrics dev cpuDraws rpsDraws clock).length = 10
    ∧ (∀ m ∈ send_batch_metrics dev cpuDraws rpsDraws clock,
        0 ≤ m.cpu ∧ m.cpu ≤ 100 ∧ 0 ≤ m.rps)
    ∧ (send_batch_metrics dev cpuDraws rpsDraws clock).Pairwise
        (fun a b => a.timestamp ≤ b.timestamp) := by
  refine ⟨by simp [send_batch_metrics], ?_, ?_⟩
  · intro m hm
    simp only [send_batch_metrics, List.mem_map] at hm
    obtain ⟨i, _, rfl⟩ := hm
    exact batch_elem_bounds dev (cpuDraws i) (rpsDraws i) (clock i)
  · simp only [send_batch_metrics, List.pairwise_map]
    exact (List.pairwise_lt_range 10).imp fun h => hclock h.le

/-- Claim C6, witness with a constant (hence monotone) clock. -/
theorem claim6_witness :
    Monotone (fun _ : ℕ => (0:ℚ))
    ∧ (send_batch_metrics "d" (fun _ => 50) (fun _ => 500) fun _ => 0).length = 10 :=
  ⟨monotone_const,
    (claim6_batch_shape "d" (fun _ => 50) (fun _ => 500) (fun _ => 0) monotone_const).1⟩

/-- Claim C7: every request of the high-frequency profile is a
single-metric send whose payload has `cpu` from the uniform [20, 80]
draw and `rps` from the uniform [200, 800] draw, each rounded to 2
decimal places, with no anomaly injection and no `device_id`; the
response is never inspected and no success counter is incremented. -/
theorem claim7_rapid_profile (u v t : ℚ) (s1 s2 : ℕ)
    (hu1 : (20:ℚ) ≤ u) (hu2 : u ≤ 80) (hv1 : (200:ℚ) ≤ v) (hv2 : v ≤ 800) :
    (rapid_metric u v t).device_id = none
    ∧ (rapid_metric u v t).cpu = pyRound2 u
    ∧ (rapid_metric u v t).rps = pyRound2 v
    ∧ (20:ℚ) ≤ (rapid_metric u v t).cpu ∧ (rapid_metric u v t).cpu ≤ 80
    ∧ (200:ℚ) ≤ (rapid_metric u v t).rps ∧ (rapid_metric u v t).rps ≤ 800
    ∧ rapid_turn u v t s1 = rapid_turn u v t s2
    ∧ (rapid_turn u v t s1).2 = none := by
  refine ⟨rfl, rfl, rfl, ?_, ?_, ?_, ?_, rfl, rfl⟩
  · show (20:ℚ) ≤ pyRound2 u
    exact_mod_cast pyRound2_ge (x := u) (k := 20) (by exact_mod_cast hu1)
  · show pyRound2 u ≤ (80:ℚ)
    exact_mod_cast pyRound2_le (x := u) (k := 80) (by exact_mod_cast hu2)
  · show (200:ℚ) ≤ pyRound2 v
    exact_mod_cast pyRound2_ge (x := v) (k := 200) (by exact_mod_cast hv1)
  · show pyRound2 v ≤ (800:ℚ)
    exact_mod_cast pyRound2_le (x := v) (k := 800) (by exact_mod_cast hv2)

/-- Claim C7, witness at concrete draws, with two different response
statuses left uninspected. -/
theorem claim7_witness :
    ((20:ℚ) ≤ 50 ∧ (50:ℚ) ≤ 80 ∧ (200:ℚ) ≤ 500 ∧ (500:ℚ) ≤ 800)
    ∧ (rapid_metric 50 500 0).device_id = none :=
  ⟨⟨by norm_num, by norm_num, by norm_num, by norm_num⟩,
    (claim7_rapid_profile 50 500 0 200 503
      (by norm_num) (by norm_num) (by norm_num) (by norm_num)).1⟩

/-- Claim C8: the Standard Profile's task table assigns exactly weight 10
to the single-metric send, 2 to the batch send, 1 to the analysis read
and 1 to the health check, and every action in the table has positive
weight. -/
theorem claim8_task_weights :
    highload_tasks.lookup "send_metric" = some 10
    ∧ highload_tasks.lookup "send_batch" = some 2
    ∧ highload_tasks.lookup "get_analysis" = some 1
    ∧ highload_tasks.lookup "health_check" = some 1
    ∧ highload_tasks.length = 4
    ∧ ∀ p ∈ highload_tasks, 0 < p.2 := by
  refine ⟨?_, ?_, ?_, ?_, rfl, ?_⟩ <;> decide

/-- Claim C8, witness: the single-metric task is in the table with its
positive weight. -/
theorem claim8_witness :
    (("send_metric", 10) : String × ℕ) ∈ highload_tasks
    ∧ 0 < (("send_metric", 10) : String × ℕ).2 :=
  ⟨by decide, claim8_task_weights.2.2.2.2.2 ("send_metric", 10) (by decide)⟩

/-- Claim C9: at session start the device id is exactly the string
`device-<k>` for the drawn `k ∈ [1, 1000]`, every metric the session
sends (single or batch element) carries that same device id, and no
response handling ever changes the session's device id. -/
theorem claim9_device_id_stable (k : ℕ) (h1 : 1 ≤ k) (h2 : k ≤ 1000) :
    (on_start k).device_id = "device-" ++ toString k
    ∧ (∀ c r roll ci ri t,
        (send_metric_payload (on_start k).device_id c r roll ci ri t).device_id =
          some ((on_start k).device_id))
    ∧ (∀ c r clock, ∀ m ∈ send_batch_metrics (on_start k).device_id c r clock,
        m.device_id = some ((on_start k).device_id))
    ∧ (∀ s status, (send_metric_update s status).1.device_id = s.device_id
        ∧ (send_batch_update s status).1.device_id = s.device_id
        ∧ (get_analysis_update s status).1.device_id = s.device_id
        ∧ ∀ body, (health_check_update s status body).1.device_id = s.device_id) := by
  refine ⟨rfl, fun c r roll ci ri t => rfl, ?_, ?_⟩
  · intro c r clock m hm
    simp only [send_batch_metrics, List.mem_map] at hm
    obtain ⟨i, _, rfl⟩ := hm
    rfl
  · intro s status
    refine ⟨?_, ?_, ?_, fun body => rfl⟩
    · unfold send_metric_update
      split_ifs <;> rfl
    · unfold send_batch_update
      split_ifs <;> rfl
    · unfold get_analysis_update
      split_ifs <;> rfl

/-- Claim C9, witness at `k = 7`. -/
theorem claim9_witness :
    ((1 : ℕ) ≤ 7 ∧ (7 : ℕ) ≤ 1000)
    ∧ (on_start 7).device_id = "device-" ++ toString 7 :=
  ⟨⟨by decide, by decide⟩, (claim9_device_id_stable 7 (by decide) (by decide)).1⟩

/-- Claim C10: a 200 health-check response whose decoded JSON body lacks
a `status` field entirely is classified failed with exactly the reason
"Service unhealthy", just like a present-but-non-healthy value. -/
theorem claim10_missing_status_field (data : PyDict) (h : dictGet data "status" = none) :
    health_check_classify 200 (some data) =
      Except.ok (Outcome.failure "Service unhealthy") := by
  simp [health_check_classify, h]

/-- Claim C10, witness: the empty JSON object. -/
theorem claim10_witness :
    dictGet ([] : PyDict) "status" = none
    ∧ health_check_classify 200 (some ([] : PyDict)) =
        Except.ok (Outcome.failure "Service unhealthy") :=
  ⟨rfl, claim10_missing_status_field [] rfl⟩

end Locustfile
